import Mathlib

/-!
Verification of the Insurance-Quote-Processor risk engine.

The definitions below are a shallow embedding of the Python sources of the
`quote_engine` app:
  * `risk_utils.py` — `calculate_crime_risk`, `calculate_flood_risk`,
    `get_long_lat`, `get_crimes_for_location`;
  * `riskservice.py` — `RiskService.calculate_location_risks`,
    `RiskService.risk_type`;
  * `utils.py` — the `log_api_call` retry/backoff decorator.

Python floats are modelled as rationals (every constant in the scoring code —
1, 1.5, 2, 10, 15, 20, 100, 200 — and every sum of them used in the theorems
is exactly representable, so the algebra is faithful).  Dictionaries coming
from JSON are modelled as structures with `Option` fields (a `.get` that can
miss), and Python's truthiness tests (`if category:`, `if cached_coords:`)
are modelled explicitly.  Fallible code returns `Except`.
-/

namespace QuoteEngine

/-! ### Crime scoring — `risk_utils.calculate_crime_risk` -/

/-- A crime record from the police API: a JSON object whose `category` field
may be absent (or `None`).  `crime.get('category')` yields `none` in both
cases, so one `Option String` field covers them. -/
structure CrimeRecord where
  category : Option String
deriving DecidableEq

/-- The `CRIME_WEIGHTS` dict of `calculate_crime_risk` (risk_utils.py lines
226-241): `CRIME_WEIGHTS.get(category, 1)` — 14 named categories, any other
category string gets the default weight 1. -/
def crimeWeight (category : String) : ℚ :=
  if category = "anti-social-behaviour" then 1
  else if category = "bicycle-theft" then 1
  else if category = "burglary" then 3
  else if category = "criminal-damage-arson" then 4
  else if category = "drugs" then 3/2
  else if category = "other-crime" then 1
  else if category = "other-theft" then 2
  else if category = "possession-of-weapons" then 4
  else if category = "public-order" then 2
  else if category = "robbery" then 3
  else if category = "shoplifting" then 2
  else if category = "theft-from-the-person" then 2
  else if category = "vehicle-crime" then 2
  else if category = "violent-crime" then 4
  else 1

/-- `PROPERTY_TYPE_MULTIPLIERS.get(product_type, 1)` of
`calculate_crime_risk` (lines 217-221, 250): BEAUTY 1.0, HOME 1.5,
COMMERCIAL 2, anything else 1. -/
def crime_multiplier (product_type : String) : ℚ :=
  if product_type = "BEAUTY" then 1
  else if product_type = "HOME" then 3/2
  else if product_type = "COMMERCIAL" then 2
  else 1

/-- The accumulation loop of `calculate_crime_risk` (lines 244-248):
`category = crime.get('category'); if category: crime_risk +=
CRIME_WEIGHTS.get(category, 1)`.  A missing/`None` category gives `none`,
and the empty string is falsy in Python, so both contribute 0. -/
def crime_risk_sum : List CrimeRecord → ℚ
  | [] => 0
  | r :: rest =>
    (match r.category with
     | some c => if c = "" then 0 else crimeWeight c
     | none => 0) + crime_risk_sum rest

/-- `MAXIMUM_CRIME_RISK` (line 224). -/
def MAXIMUM_CRIME_RISK : ℚ := 100

/-- `calculate_crime_risk(crime_data, product_type)` (lines 197-253):
weighted sum, times the property multiplier, normalised by
`min(crime_risk/MAXIMUM_CRIME_RISK, 1) * 100`. -/
def calculate_crime_risk (crime_data : List CrimeRecord) (product_type : String) : ℚ :=
  min (crime_risk_sum crime_data * crime_multiplier product_type / MAXIMUM_CRIME_RISK) 1 * 100

/-! ### Flood scoring — `risk_utils.calculate_flood_risk` -/

/-- One element of the flood API's `items` list; `severityLevel` and
`isTidal` are read with `flood.get('severityLevel', 4)` and
`flood.get('isTidal', False)`, so both may be absent. -/
structure FloodItem where
  severityLevel : Option ℤ
  isTidal : Option Bool
deriving DecidableEq

/-- `PROPERTY_TYPE_MULTIPLIERS.get(product_type, 1)` of
`calculate_flood_risk` (lines 285-289, 312): BEAUTY 1.0, COMMERCIAL 1.5,
HOME 2, anything else 1 — the inverse ordering from crime. -/
def flood_multiplier (product_type : String) : ℚ :=
  if product_type = "BEAUTY" then 1
  else if product_type = "COMMERCIAL" then 3/2
  else if product_type = "HOME" then 2
  else 1

/-- The per-item score of the loop in `calculate_flood_risk` (lines
294-309): severity 1→20, 2→15, 3→10, anything else (including the
missing-key default 4) → 0, plus 10 if tidal. -/
def flood_item_score (flood : FloodItem) : ℚ :=
  let severityLevel := flood.severityLevel.getD 4
  let score : ℚ :=
    if severityLevel = 1 then 20
    else if severityLevel = 2 then 15
    else if severityLevel = 3 then 10
    else 0
  if flood.isTidal.getD false then score + 10 else score

/-- The accumulation loop of `calculate_flood_risk` over
`flood_data.get('items')`. -/
def flood_risk_sum : List FloodItem → ℚ
  | [] => 0
  | f :: rest => flood_item_score f + flood_risk_sum rest

/-- `MAX_FLOOD_RISK` (line 291). -/
def MAX_FLOOD_RISK : ℚ := 200

/-- `calculate_flood_risk(flood_data, product_type)` (lines 261-315),
taking the `items` list of the response dict directly: item-score sum,
times the property multiplier, normalised by
`min(flood_risk/MAX_FLOOD_RISK, 1) * 100`. -/
def calculate_flood_risk (flood_data : List FloodItem) (product_type : String) : ℚ :=
  min (flood_risk_sum flood_data * flood_multiplier product_type / MAX_FLOOD_RISK) 1 * 100

/-! ### Spec-side scoring functions (for the refinement claims)

These two definitions follow the words of spec §4.4, to be compared with
the source-derived functions above. -/

/-- Modelled from the spec (§4.4 ScoreCrime): each record contributes a
weight from the fixed table (unknown categories default to 1); sum of
weights × product multiplier; normalise `min(sum/100, 1) * 100`. -/
def spec_crime_score (categories : List String) (product_type : String) : ℚ :=
  min ((categories.map crimeWeight).sum * crime_multiplier product_type / 100) 1 * 100

/-- Modelled from the spec (§4.4 ScoreFlood): each item scores by severity
(1→20, 2→15, 3→10, else 0 — a missing level is treated as non-scoring),
plus 10 if tidal. -/
def spec_flood_item_score (f : FloodItem) : ℚ :=
  (match f.severityLevel with
   | some 1 => 20
   | some 2 => 15
   | some 3 => 10
   | _ => 0)
  + (if f.isTidal.getD false then 10 else 0)

/-- Modelled from the spec (§4.4 ScoreFlood): sum of item scores × product
multiplier, normalised against a ceiling of 200: `min(sum/200, 1) * 100`. -/
def spec_flood_score (items : List FloodItem) (product_type : String) : ℚ :=
  min ((items.map spec_flood_item_score).sum * flood_multiplier product_type / 200) 1 * 100

/-! ### Refinement lemmas -/

lemma flood_item_score_eq_spec (f : FloodItem) :
    flood_item_score f = spec_flood_item_score f := by
  obtain ⟨sl, tid⟩ := f
  cases sl with
  | none =>
    cases tid with
    | none => simp [flood_item_score, spec_flood_item_score]
    | some b => cases b <;> simp [flood_item_score, spec_flood_item_score]
  | some v =>
    have htid : (FloodItem.mk (some v) tid).isTidal = tid := rfl
    by_cases h1 : v = 1 <;> by_cases h2 : v = 2 <;> by_cases h3 : v = 3 <;>
      cases tid with
      | none =>
        simp [flood_item_score, spec_flood_item_score, h1, h2, h3]
      | some b =>
        cases b <;> simp [flood_item_score, spec_flood_item_score, h1, h2, h3]

lemma flood_risk_sum_eq_spec (data : List FloodItem) :
    flood_risk_sum data = (data.map spec_flood_item_score).sum := by
  induction data with
  | nil => simp [flood_risk_sum]
  | cons f rest ih => simp [flood_risk_sum, flood_item_score_eq_spec, ih]

lemma crime_risk_sum_eq_spec :
    ∀ data : List CrimeRecord,
      (∀ r ∈ data, ∃ s, r.category = some s ∧ s ≠ "") →
      crime_risk_sum data = ((data.map fun r => r.category.getD "").map crimeWeight).sum := by
  intro data h
  induction data with
  | nil => simp [crime_risk_sum]
  | cons r rest ih =>
    obtain ⟨s, hs, hne⟩ := h r (List.mem_cons_self r rest)
    have hrest := ih (fun x hx => h x (List.mem_cons_of_mem r hx))
    simp [crime_risk_sum, hs, hne, hrest]

/-- **C3.** `calculate_crime_risk` matches the spec's ScoreCrime formula
`min(S/100, 1) * 100` with S the weighted category sum times the product
multiplier, for every dataset whose records carry a (present, nonempty)
category string; and the spec's worked example —
`[{category:"burglary"}, {category:"drugs"}]` with HOME — scores exactly
6.75 = 27/4. -/
theorem crime_risk_refines_spec (data : List CrimeRecord) (pt : String)
    (h : ∀ r ∈ data, ∃ s, r.category = some s ∧ s ≠ "") :
    calculate_crime_risk data pt =
      spec_crime_score (data.map fun r => r.category.getD "") pt ∧
    calculate_crime_risk [⟨some "burglary"⟩, ⟨some "drugs"⟩] "HOME" = 27/4 := by
  constructor
  · unfold calculate_crime_risk spec_crime_score MAXIMUM_CRIME_RISK
    rw [crime_risk_sum_eq_spec data h]
  · simp [calculate_crime_risk, crime_risk_sum, crimeWeight, crime_multiplier,
      MAXIMUM_CRIME_RISK]
    norm_num [min_def]

/-- Witness for `crime_risk_refines_spec` at the spec's worked example. -/
theorem crime_risk_refines_spec_witness :
    calculate_crime_risk [⟨some "burglary"⟩, ⟨some "drugs"⟩] "HOME" =
      spec_crime_score ["burglary", "drugs"] "HOME" ∧
    calculate_crime_risk [⟨some "burglary"⟩, ⟨some "drugs"⟩] "HOME" = 27/4 := by
  have h := crime_risk_refines_spec [⟨some "burglary"⟩, ⟨some "drugs"⟩] "HOME"
    (by
      intro r hr
      rcases List.mem_cons.mp hr with h1 | h1
      · exact ⟨"burglary", by rw [h1], by decide⟩
      · rcases List.mem_cons.mp h1 with h2 | h2
        · exact ⟨"drugs", by rw [h2], by decide⟩
        · exact absurd h2 (List.not_mem_nil r))
  exact ⟨h.1, h.2⟩

/-- **C4.** `calculate_flood_risk` equals the spec's ScoreFlood formula
`min(S/200, 1) * 100` — severity 1→20, 2→15, 3→10, other or missing → 0,
+10 if tidal, times the product multiplier — for every dataset and product
type; and the spec's worked example `[{severityLevel:1, isTidal:true}]`
with HOME scores exactly 30. -/
theorem flood_risk_refines_spec (data : List FloodItem) (pt : String) :
    calculate_flood_risk data pt = spec_flood_score data pt ∧
    calculate_flood_risk [⟨some 1, some true⟩] "HOME" = 30 := by
  constructor
  · unfold calculate_flood_risk spec_flood_score MAX_FLOOD_RISK
    rw [flood_risk_sum_eq_spec]
  · simp [calculate_flood_risk, flood_risk_sum, flood_item_score, flood_multiplier,
      MAX_FLOOD_RISK, Option.getD]
    norm_num [min_def]

/-! ### Bounds and edge cases of the scorers -/

lemma crimeWeight_nonneg (c : String) : 0 ≤ crimeWeight c := by
  unfold crimeWeight
  by_cases h01 : c = "anti-social-behaviour"
  · rw [if_pos h01]; norm_num
  rw [if_neg h01]
  by_cases h02 : c = "bicycle-theft"
  · rw [if_pos h02]; norm_num
  rw [if_neg h02]
  by_cases h03 : c = "burglary"
  · rw [if_pos h03]; norm_num
  rw [if_neg h03]
  by_cases h04 : c = "criminal-damage-arson"
  · rw [if_pos h04]; norm_num
  rw [if_neg h04]
  by_cases h05 : c = "drugs"
  · rw [if_pos h05]; norm_num
  rw [if_neg h05]
  by_cases h06 : c = "other-crime"
  · rw [if_pos h06]; norm_num
  rw [if_neg h06]
  by_cases h07 : c = "other-theft"
  · rw [if_pos h07]; norm_num
  rw [if_neg h07]
  by_cases h08 : c = "possession-of-weapons"
  · rw [if_pos h08]; norm_num
  rw [if_neg h08]
  by_cases h09 : c = "public-order"
  · rw [if_pos h09]; norm_num
  rw [if_neg h09]
  by_cases h10 : c = "robbery"
  · rw [if_pos h10]; norm_num
  rw [if_neg h10]
  by_cases h11 : c = "shoplifting"
  · rw [if_pos h11]; norm_num
  rw [if_neg h11]
  by_cases h12 : c = "theft-from-the-person"
  · rw [if_pos h12]; norm_num
  rw [if_neg h12]
  by_cases h13 : c = "vehicle-crime"
  · rw [if_pos h13]; norm_num
  rw [if_neg h13]
  by_cases h14 : c = "violent-crime"
  · rw [if_pos h14]; norm_num
  rw [if_neg h14]
  norm_num

lemma crime_risk_sum_nonneg (data : List CrimeRecord) : 0 ≤ crime_risk_sum data := by
  induction data with
  | nil => simp [crime_risk_sum]
  | cons r rest ih =>
    have hr : (0:ℚ) ≤ (match r.category with
        | some c => if c = "" then 0 else crimeWeight c
        | none => 0) := by
      cases r.category with
      | none => simp
      | some c =>
        by_cases hc : c = "" <;> simp [hc, crimeWeight_nonneg]
    calc (0:ℚ) ≤ _ + crime_risk_sum rest := add_nonneg hr ih
      _ = crime_risk_sum (r :: rest) := by rw [crime_risk_sum]

lemma crime_multiplier_nonneg (pt : String) : 0 ≤ crime_multiplier pt := by
  unfold crime_multiplier
  split_ifs <;> norm_num

lemma flood_item_score_nonneg (f : FloodItem) : 0 ≤ flood_item_score f := by
  simp only [flood_item_score]
  split_ifs <;> norm_num

lemma flood_risk_sum_nonneg (data : List FloodItem) : 0 ≤ flood_risk_sum data := by
  induction data with
  | nil => simp [flood_risk_sum]
  | cons f rest ih =>
    rw [flood_risk_sum]
    exact add_nonneg (flood_item_score_nonneg f) ih

lemma flood_multiplier_nonneg (pt : String) : 0 ≤ flood_multiplier pt := by
  unfold flood_multiplier
  split_ifs <;> norm_num

/-- The normalisation `min(x/d, 1) * 100` always lands in `[0, 100]` when
the raw sum is nonnegative. -/
lemma normalized_score_bounds (x d : ℚ) (hx : 0 ≤ x) (hd : 0 < d) :
    0 ≤ min (x / d) 1 * 100 ∧ min (x / d) 1 * 100 ≤ 100 := by
  constructor
  · have h0 : (0:ℚ) ≤ min (x / d) 1 :=
      le_min (div_nonneg hx hd.le) zero_le_one
    positivity
  · have h1 : min (x / d) 1 ≤ 1 := min_le_right _ _
    calc min (x / d) 1 * 100 ≤ 1 * 100 := by
          exact mul_le_mul_of_nonneg_right h1 (by norm_num)
      _ = 100 := one_mul 100

/-- **C5.** For every dataset and product type (including unrecognised
product types, whose multiplier defaults to 1) both scorers stay in
`[0, 100]`, and both return 0 on an empty dataset. -/
theorem risk_scores_bounded (crime_data : List CrimeRecord)
    (flood_data : List FloodItem) (pt : String) :
    (0 ≤ calculate_crime_risk crime_data pt ∧ calculate_crime_risk crime_data pt ≤ 100) ∧
    (0 ≤ calculate_flood_risk flood_data pt ∧ calculate_flood_risk flood_data pt ≤ 100) ∧
    calculate_crime_risk [] pt = 0 ∧ calculate_flood_risk [] pt = 0 ∧
    (pt ≠ "BEAUTY" → pt ≠ "HOME" → pt ≠ "COMMERCIAL" →
      crime_multiplier pt = 1 ∧ flood_multiplier pt = 1) := by
  refine ⟨?_, ?_, ?_, ?_, ?_⟩
  · unfold calculate_crime_risk MAXIMUM_CRIME_RISK
    exact normalized_score_bounds _ 100
      (mul_nonneg (crime_risk_sum_nonneg crime_data) (crime_multiplier_nonneg pt))
      (by norm_num)
  · unfold calculate_flood_risk MAX_FLOOD_RISK
    exact normalized_score_bounds _ 200
      (mul_nonneg (flood_risk_sum_nonneg flood_data) (flood_multiplier_nonneg pt))
      (by norm_num)
  · simp [calculate_crime_risk, crime_risk_sum, MAXIMUM_CRIME_RISK]
  · simp [calculate_flood_risk, flood_risk_sum, MAX_FLOOD_RISK]
  · intro h1 h2 h3
    constructor
    · simp [crime_multiplier, h1, h2, h3]
    · simp [flood_multiplier, h1, h2, h3]

/-- Witness for `risk_scores_bounded` at a concrete dataset and the
unrecognised product type `"RETAIL"`. -/
theorem risk_scores_bounded_witness :
    (0 ≤ calculate_crime_risk [⟨some "robbery"⟩] "RETAIL" ∧
      calculate_crime_risk [⟨some "robbery"⟩] "RETAIL" ≤ 100) ∧
    (0 ≤ calculate_flood_risk [⟨some 2, some false⟩] "RETAIL" ∧
      calculate_flood_risk [⟨some 2, some false⟩] "RETAIL" ≤ 100) ∧
    calculate_crime_risk [] "RETAIL" = 0 ∧ calculate_flood_risk [] "RETAIL" = 0 ∧
    (crime_multiplier "RETAIL" = 1 ∧ flood_multiplier "RETAIL" = 1) := by
  have h := risk_scores_bounded [⟨some "robbery"⟩] [⟨some 2, some false⟩] "RETAIL"
  exact ⟨h.1, h.2.1, h.2.2.1, h.2.2.2.1,
    h.2.2.2.2 (by decide) (by decide) (by decide)⟩

/-- **C10.** A crime record whose `category` is absent/`None` (modelled as
`none`) or the empty string contributes nothing to the crime score, unlike
an unrecognised-but-present category string, which weighs 1. -/
theorem falsy_category_contributes_zero (data : List CrimeRecord) (pt : String)
    (r : CrimeRecord) (h : r.category = none ∨ r.category = some "") :
    calculate_crime_risk (r :: data) pt = calculate_crime_risk data pt ∧
    calculate_crime_risk [⟨some "not-in-the-weight-table"⟩] "BEAUTY" = 1 := by
  constructor
  · have hsum : crime_risk_sum (r :: data) = crime_risk_sum data := by
      rcases h with h | h <;> simp [crime_risk_sum, h]
    unfold calculate_crime_risk
    rw [hsum]
  · simp [calculate_crime_risk, crime_risk_sum, crimeWeight, crime_multiplier,
      MAXIMUM_CRIME_RISK]
    norm_num [min_def]

/-- Witness for `falsy_category_contributes_zero`: prepending a
category-less record leaves the score of a one-burglary dataset unchanged. -/
theorem falsy_category_contributes_zero_witness :
    calculate_crime_risk [⟨none⟩, ⟨some "burglary"⟩] "HOME" =
      calculate_crime_risk [⟨some "burglary"⟩] "HOME" ∧
    calculate_crime_risk [⟨some "not-in-the-weight-table"⟩] "BEAUTY" = 1 :=
  falsy_category_contributes_zero [⟨some "burglary"⟩] "HOME" ⟨none⟩ (Or.inl rfl)

/-! ### The orchestrator — `riskservice.RiskService` -/

/-- The dict returned by `RiskService.calculate_location_risks`
(riskservice.py lines 38-41). -/
structure LocationRisks where
  flood_risk : ℚ
  crime_risk : ℚ
deriving DecidableEq

/-- `RiskService.calculate_location_risks(postcode, product_type, timestamp)`
(riskservice.py lines 22-44).  The three lookups `get_long_lat`,
`get_flood_data_for_location` and `get_crimes_for_location` are passed as
oracles giving the value each successful fetch returns (any fetch failure
aborts the whole assessment with a wrapped error, which no claim here is
about).  Line 36 of the source passes the literal `'HOME'` to
`calculate_crime_risk`, not `product_type`. -/
def calculate_location_risks (postcode product_type timestamp : String)
    (geo : String → ℚ × ℚ)
    (flood_fetch : ℚ → ℚ → List FloodItem)
    (crime_fetch : String → ℚ → ℚ → List CrimeRecord) :
    Except String LocationRisks :=
  if postcode = "" ∨ product_type = "" ∨ timestamp = "" then
    Except.error "Invalid input data provided"
  else
    let coords := geo postcode
    let flood_data := flood_fetch coords.1 coords.2
    let flood_risk := calculate_flood_risk flood_data product_type
    let crime_data := crime_fetch timestamp coords.1 coords.2
    let crime_risk := calculate_crime_risk crime_data "HOME"
    Except.ok ⟨flood_risk, crime_risk⟩

/-- `RiskService.risk_type(flood_risk, crime_risk)` (riskservice.py lines
46-57).  When the total is exactly 100 neither branch assigns
`risk_value`, so `print(risk_value)` raises `UnboundLocalError`, which the
`except Exception` clause re-raises as a `ValueError` — modelled as the
`Except.error` case. -/
def risk_type (flood_risk crime_risk : ℚ) : Except String String :=
  if flood_risk + crime_risk > 100 then Except.ok "HIGH_VALUE_RISK"
  else if flood_risk + crime_risk < 100 then Except.ok "STANDARD_VALUE_RISK"
  else Except.error
    "Error calculating risk type: local variable risk_value referenced before assignment"

/-- **C1 (code bug).** The orchestrator scores crime with the hard-coded
product type `'HOME'`: for the request product type `COMMERCIAL` and the
one-burglary dataset it returns crime risk 4.5 (the HOME-multiplier
score), while `calculate_crime_risk` at the request's actual product type
gives 6. -/
theorem crime_product_type_hardcoded_bug :
    calculate_location_risks "SW1A 1AA" "COMMERCIAL" "2024-01-15 10:30:00"
        (fun _ => (103/2, 7/50)) (fun _ _ => []) (fun _ _ _ => [⟨some "burglary"⟩])
      = Except.ok ⟨0, 9/2⟩ ∧
    calculate_crime_risk [⟨some "burglary"⟩] "COMMERCIAL" = 6 ∧
    ((9:ℚ)/2) ≠ 6 := by
  refine ⟨?_, ?_, by norm_num⟩
  · simp [calculate_location_risks, calculate_crime_risk, calculate_flood_risk,
      crime_risk_sum, flood_risk_sum, crimeWeight, crime_multiplier, flood_multiplier,
      MAXIMUM_CRIME_RISK, MAX_FLOOD_RISK]
    norm_num [min_def]
  · simp [calculate_crime_risk, crime_risk_sum, crimeWeight, crime_multiplier,
      MAXIMUM_CRIME_RISK]
    norm_num [min_def]

/-- **C2 (code bug).** `risk_type` classifies sums above 100 as
HIGH_VALUE_RISK and below 100 as STANDARD_VALUE_RISK, but at exactly 100
it raises (UnboundLocalError wrapped into ValueError) instead of
resolving to a defined category. -/
theorem risk_type_boundary_bug :
    risk_type 60 40 = Except.error
      "Error calculating risk type: local variable risk_value referenced before assignment" ∧
    risk_type 60 41 = Except.ok "HIGH_VALUE_RISK" ∧
    risk_type 60 39 = Except.ok "STANDARD_VALUE_RISK" := by
  refine ⟨?_, ?_, ?_⟩ <;> norm_num [risk_type]

/-! ### The retry/backoff wrapper — `utils.log_api_call`

The wrapped view is modelled as a function from the attempt index (0-based)
to that attempt's outcome; `time.sleep` is modelled by accumulating the
requested seconds.  The audit-logging block sits inside its own
`try/except` and never changes the returned response, so it is not part of
the model. -/

/-- Boolean error test on an attempt outcome. -/
def is_error {E A : Type} : Except E A → Bool
  | Except.error _ => true
  | Except.ok _ => false

/-- What one run of the wrapper produces: the returned/raised outcome
(`none` only when the `while attempt < max_retries` loop never runs, i.e.
`max_retries = 0`, where Python falls off the function returning `None`),
the total seconds slept, and how many times the wrapped view ran. -/
structure RetryOutcome (E A : Type) where
  result : Option (Except E A)
  slept : ℚ
  attempts : ℕ

/-- The `while attempt < max_retries` loop of `log_api_call`'s `wrapper`
(utils.py lines 35-87), with `remaining = max_retries - attempt` as the
recursion measure: on success return the response; on an exception
increment `attempt`, re-raise it if `attempt >= max_retries`, otherwise
`time.sleep(wait_time)` and multiply `wait_time` by `backoff_factor`. -/
def retry_loop {E A : Type} (op : ℕ → Except E A) (backoff_factor : ℚ) :
    ℕ → ℕ → ℚ → ℚ → RetryOutcome E A
  | attempt, 0, _, slept => ⟨none, slept, attempt⟩
  | attempt, remaining + 1, wait_time, slept =>
    match op attempt with
    | Except.ok a => ⟨some (Except.ok a), slept, attempt + 1⟩
    | Except.error e =>
      if remaining = 0 then ⟨some (Except.error e), slept, attempt + 1⟩
      else retry_loop op backoff_factor (attempt + 1) remaining
        (wait_time * backoff_factor) (slept + wait_time)

/-- `log_api_call(max_retries, backoff_factor)` applied to an operation:
`attempt = 0`, `wait_time = 1` (utils.py lines 36-37). -/
def log_api_call {E A : Type} (max_retries : ℕ) (backoff_factor : ℚ)
    (op : ℕ → Except E A) : RetryOutcome E A :=
  retry_loop op backoff_factor 0 max_retries 1 0

lemma retry_loop_attempts_le {E A : Type} (op : ℕ → Except E A) (b : ℚ) :
    ∀ (remaining attempt : ℕ) (wait slept : ℚ),
      (retry_loop op b attempt remaining wait slept).attempts ≤ attempt + remaining
  | 0, attempt, _, _ => by simp [retry_loop]
  | remaining + 1, attempt, wait, slept => by
    rw [retry_loop]
    cases hop : op attempt with
    | ok a => simp
    | error e =>
      by_cases hr : remaining = 0
      · simp [hr]
      · simp only [if_neg hr]
        have h := retry_loop_attempts_le op b remaining (attempt + 1)
          (wait * b) (slept + wait)
        omega

lemma retry_loop_all_fail {E A : Type} (op : ℕ → Except E A) (b : ℚ) (e : E) :
    ∀ (remaining attempt : ℕ) (wait slept : ℚ), 0 < remaining →
      (∀ i, attempt ≤ i → i < attempt + remaining → op i = Except.error e) →
      (retry_loop op b attempt remaining wait slept).result = some (Except.error e)
  | 0, _, _, _, hpos, _ => absurd hpos (by omega)
  | remaining + 1, attempt, wait, slept, _, hall => by
    have hcur : op attempt = Except.error e := hall attempt le_rfl (by omega)
    rw [retry_loop, hcur]
    by_cases hr : remaining = 0
    · simp [hr]
    · simp only [if_neg hr]
      exact retry_loop_all_fail op b e remaining (attempt + 1) (wait * b) (slept + wait)
        (by omega) (fun i h1 h2 => hall i (by omega) (by omega))

lemma retry_loop_eventual_success {E A : Type} (op : ℕ → Except E A) (b : ℚ) (a : A) :
    ∀ (k remaining attempt : ℕ) (wait slept : ℚ), k < remaining →
      (∀ i, i < k → is_error (op (attempt + i)) = true) →
      op (attempt + k) = Except.ok a →
      retry_loop op b attempt remaining wait slept =
        ⟨some (Except.ok a), slept + wait * ∑ i ∈ Finset.range k, b ^ i, attempt + k + 1⟩
  | 0, remaining, attempt, wait, slept, hk, _, hok => by
    obtain ⟨r, rfl⟩ : ∃ r, remaining = r + 1 := ⟨remaining - 1, by omega⟩
    rw [retry_loop]
    rw [Nat.add_zero] at hok
    rw [hok]
    simp
  | k + 1, remaining, attempt, wait, slept, hk, hfail, hok => by
    obtain ⟨r, rfl⟩ : ∃ r, remaining = r + 1 := ⟨remaining - 1, by omega⟩
    have hr : r ≠ 0 := by omega
    have hcur : is_error (op attempt) = true := by
      have := hfail 0 (by omega)
      rwa [Nat.add_zero] at this
    rw [retry_loop]
    cases hop : op attempt with
    | ok _ => rw [hop] at hcur; simp [is_error] at hcur
    | error e =>
      simp only [if_neg hr]
      have hrec := retry_loop_eventual_success op b a k r (attempt + 1)
        (wait * b) (slept + wait) (by omega)
        (fun i hi => by
          have := hfail (i + 1) (by omega)
          rwa [show attempt + (i + 1) = attempt + 1 + i by omega] at this)
        (by rwa [show attempt + 1 + k = attempt + (k + 1) by omega])
      rw [hrec]
      have hslept : slept + wait + wait * b * ∑ i ∈ Finset.range k, b ^ i =
          slept + wait * ∑ i ∈ Finset.range (k + 1), b ^ i := by
        rw [geom_sum_succ]
        ring
      rw [RetryOutcome.mk.injEq]
      refine ⟨rfl, by linarith [hslept], by omega⟩

/-- **C8.** The retry wrapper runs the operation at most `max_retries`
times; if every attempt fails with error `e`, `e` itself is surfaced; and
if the first `k` attempts fail and attempt `k` succeeds (`k <
max_retries`), the successful response is returned after exactly `k + 1`
executions, having slept `∑ i < k, backoff_factor ^ i` seconds — the
schedule 1, b, b², … started at 1 and multiplied by `backoff_factor` after
every failed attempt (so 1 + 2 = 3 seconds for two failures with the
default `backoff_factor = 2`). -/
theorem log_api_call_retry_contract {E A : Type} (max_retries : ℕ) (b : ℚ)
    (op : ℕ → Except E A) :
    (log_api_call max_retries b op).attempts ≤ max_retries ∧
    (∀ e : E, 0 < max_retries → (∀ i, i < max_retries → op i = Except.error e) →
      (log_api_call max_retries b op).result = some (Except.error e)) ∧
    (∀ (k : ℕ) (a : A), k < max_retries →
      (∀ i, i < k → is_error (op i) = true) → op k = Except.ok a →
      (log_api_call max_retries b op).result = some (Except.ok a) ∧
      (log_api_call max_retries b op).slept = ∑ i ∈ Finset.range k, b ^ i ∧
      (log_api_call max_retries b op).attempts = k + 1) := by
  refine ⟨?_, ?_, ?_⟩
  · have h := retry_loop_attempts_le op b max_retries 0 1 0
    simpa [log_api_call] using h
  · intro e hpos hall
    have h := retry_loop_all_fail op b e max_retries 0 1 0 hpos
      (fun i h1 h2 => hall i (by omega))
    simpa [log_api_call] using h
  · intro k a hk hfail hok
    have h := retry_loop_eventual_success op b a k max_retries 0 1 0 hk
      (fun i hi => by simpa using hfail i hi) (by simpa using hok)
    rw [log_api_call, h]
    refine ⟨rfl, by simp, by simp⟩

/-- The spec's §8 retry scenario: an upstream that times out on the first
two attempts and succeeds on the third. -/
def retry_op_scenario : ℕ → Except String String :=
  fun i => if i < 2 then Except.error "timeout" else Except.ok "crime-response"

/-- An upstream that fails on every attempt. -/
def retry_op_failing : ℕ → Except String String :=
  fun _ => Except.error "timeout"

/-- Witness for `log_api_call_retry_contract`: with `max_retries = 3` and
`backoff_factor = 2`, fail-fail-succeed yields the success after 3
attempts and 1 + 2 = 3 seconds of backoff sleep, and an always-failing
operation surfaces its own error. -/
theorem log_api_call_retry_contract_witness :
    (log_api_call 3 2 retry_op_scenario).result = some (Except.ok "crime-response") ∧
    (log_api_call 3 2 retry_op_scenario).slept = 3 ∧
    (log_api_call 3 2 retry_op_scenario).attempts = 3 ∧
    (log_api_call 3 2 retry_op_failing).result = some (Except.error "timeout") ∧
    (log_api_call 3 2 retry_op_failing).attempts ≤ 3 := by
  have h1 := (log_api_call_retry_contract 3 2 retry_op_scenario).2.2 2 "crime-response"
    (by omega)
    (fun i hi => by
      interval_cases i <;> rfl)
    (by rfl)
  have h2 := (log_api_call_retry_contract 3 2 retry_op_failing).2.1 "timeout"
    (by omega) (fun i _ => rfl)
  have h3 := (log_api_call_retry_contract 3 2 retry_op_failing).1
  refine ⟨h1.1, ?_, h1.2.2, h2, h3⟩
  rw [h1.2.1, Finset.sum_range_succ, Finset.sum_range_succ, Finset.sum_range_zero]
  norm_num

/-! ### The coordinate resolver — `risk_utils.get_long_lat`

Python values flowing through the resolver are dynamically typed: the
function can return a `(latitude, longitude)` tuple, a bare float (a cache
hit on what `cache.set` stored), or fall off the end returning `None`. -/

/-- The dynamically-typed values the resolver handles. -/
inductive PyVal
  | pyNone
  | pyFloat (q : ℚ)
  | pyPair (a b : ℚ)
deriving DecidableEq

/-- Python truthiness of those values (`if cached_coords:`). -/
def truthy : PyVal → Bool
  | PyVal.pyNone => false
  | PyVal.pyFloat q => q ≠ 0
  | PyVal.pyPair _ _ => true

/-- `CACHE_TIMEOUT = 60 * 60 * 24` (risk_utils.py line 19). -/
def CACHE_TIMEOUT : ℕ := 60 * 60 * 24

/-- Django's versioned cache key (`KEY_PREFIX` defaults to the empty
string): `make_key(key, version) = ":<version>:<key>"`. -/
def make_key (version : ℕ) (key : String) : String :=
  ":" ++ toString version ++ ":" ++ key

/-- One stored cache entry: versioned key, value, timeout seconds. -/
def DjangoCache : Type := List (String × PyVal × ℚ)

/-- `cache.get(key)` reads at the default version 1. -/
def cache_get (c : DjangoCache) (key : String) : Option PyVal :=
  (List.find? (fun e => e.1 == make_key 1 key) c).map (fun e => e.2.1)

/-- `cache.set(key, value, timeout, version)` stores under the given
version.  `get_long_lat` calls it with the positional arguments
`(cache_key, latitude, longitude, CACHE_TIMEOUT)` (risk_utils.py line 56),
so against Django's signature `set(key, value, timeout=..., version=...)`
the value is the bare latitude, the timeout is the longitude and the
version is `CACHE_TIMEOUT`. -/
def cache_set (c : DjangoCache) (key : String) (value : PyVal) (timeout : ℚ)
    (version : ℕ) : DjangoCache :=
  (make_key version key, value, timeout) :: c

/-- `risk_postcode.replace(" ", "").upper()` (line 36). -/
def normalize_postcode (s : String) : String :=
  String.mk ((s.data.filter (fun ch => ch ≠ ' ')).map Char.toUpper)

/-- The postcode-lookup upstream's behaviour for one request: a transport
error, or an HTTP response.  A 200 body is `data` with the nested
`data['result']` dict: `falsy` when `data` itself is falsy, `noResult`
when the `result` key is missing (making `data['result']` raise
`KeyError`), or the `result` dict with optional latitude/longitude. -/
inductive GeoBody
  | falsy
  | noResult
  | withResult (latitude longitude : Option ℚ)
deriving DecidableEq

inductive GeoResp
  | reqError
  | response (status : ℕ) (body : GeoBody)
deriving DecidableEq

/-- The exceptions `get_long_lat` can surface: the explicit
`ValueError` on a non-200 status, `ConnectionError` on
`requests.RequestException`, and the propagated `KeyError` from
`data['result']` (re-raised unchanged by `except Exception: raise`). -/
inductive GeoErr
  | valueError (postcode : String) (status : ℕ)
  | connectionError (postcode : String)
  | keyError
deriving DecidableEq

/-- What one call to `get_long_lat` produces: the returned value or raised
error, the cache afterwards, and how many network requests were made. -/
structure GeoOutcome where
  result : Except GeoErr PyVal
  cache : DjangoCache
  net_calls : ℕ

/-- The cache-miss path of `get_long_lat` (risk_utils.py lines 45-65):
one `requests.get`; on 200 with both coordinates present, cache (with the
misplaced positional arguments) and return the pair; on 200 with a falsy
body or a missing coordinate field, fall off the function returning
`None`; on non-200 raise `ValueError`; on a transport error raise
`ConnectionError`. -/
def get_long_lat_fetch (c : DjangoCache) (net : GeoResp)
    (risk_postcode cache_key : String) : GeoOutcome :=
  match net with
  | GeoResp.reqError => ⟨Except.error (GeoErr.connectionError risk_postcode), c, 1⟩
  | GeoResp.response status body =>
    if status = 200 then
      match body with
      | GeoBody.falsy => ⟨Except.ok PyVal.pyNone, c, 1⟩
      | GeoBody.noResult => ⟨Except.error GeoErr.keyError, c, 1⟩
      | GeoBody.withResult (some latitude) (some longitude) =>
        ⟨Except.ok (PyVal.pyPair latitude longitude),
          cache_set c cache_key (PyVal.pyFloat latitude) longitude CACHE_TIMEOUT, 1⟩
      | GeoBody.withResult _ _ => ⟨Except.ok PyVal.pyNone, c, 1⟩
    else ⟨Except.error (GeoErr.valueError risk_postcode status), c, 1⟩

/-- `get_long_lat(risk_postcode)` (risk_utils.py lines 21-65) against a
given cache state and upstream behaviour.  A truthy cached value is
returned as-is with no network call; otherwise the fetch path runs. -/
def get_long_lat (c : DjangoCache) (net : GeoResp) (risk_postcode : String) :
    GeoOutcome :=
  let cache_key := "postcode_cordinates_" ++ normalize_postcode risk_postcode
  match cache_get c cache_key with
  | some v =>
    if truthy v then ⟨Except.ok v, c, 0⟩
    else get_long_lat_fetch c net risk_postcode cache_key
  | none => get_long_lat_fetch c net risk_postcode cache_key

/-- A postcode upstream answering 200 with latitude 51.5, longitude 0.14. -/
def c6_net : GeoResp :=
  GeoResp.response 200 (GeoBody.withResult (some (103/2)) (some (7/50)))

/-- First resolution of `"SW1A 1AA"` against an empty cache. -/
def c6_first : GeoOutcome := get_long_lat [] c6_net "SW1A 1AA"

/-- Second resolution, immediately after the first. -/
def c6_second : GeoOutcome := get_long_lat c6_first.cache c6_net "SW1A 1AA"

/-- **C6 (code bug).** After a successful resolution, the cache holds only
the bare latitude, stored with the longitude as the timeout and
`CACHE_TIMEOUT` as the *version*; `cache.get` reads at the default
version, so the entry is invisible to it and the second resolution misses
the cache and performs another network call (1, not the claimed 0) — and
had the read ever hit, the stored value is the bare latitude, not the
`(latitude, longitude)` pair. -/
theorem postcode_cache_never_hits_bug :
    c6_first.result = Except.ok (PyVal.pyPair (103/2) (7/50)) ∧
    c6_first.net_calls = 1 ∧
    c6_first.cache =
      [(make_key CACHE_TIMEOUT "postcode_cordinates_SW1A1AA",
        PyVal.pyFloat (103/2), (7/50 : ℚ))] ∧
    cache_get c6_first.cache "postcode_cordinates_SW1A1AA" = none ∧
    c6_second.net_calls = 1 ∧
    c6_second.result = c6_first.result :=
  ⟨rfl, rfl, rfl, rfl, rfl, rfl⟩

/-- **C9.** A 200 response whose `result` dict lacks the longitude and/or
the latitude field makes `get_long_lat` fall off the end of the 200
branch: it returns `None` (no coordinate pair) without raising any
error. -/
theorem missing_coordinate_field_returns_none (pc : String) (lat long : ℚ) :
    (get_long_lat [] (GeoResp.response 200 (GeoBody.withResult (some lat) none)) pc).result
      = Except.ok PyVal.pyNone ∧
    (get_long_lat [] (GeoResp.response 200 (GeoBody.withResult none (some long))) pc).result
      = Except.ok PyVal.pyNone ∧
    (get_long_lat [] (GeoResp.response 200 (GeoBody.withResult none none)) pc).result
      = Except.ok PyVal.pyNone :=
  ⟨rfl, rfl, rfl⟩

/-! ### The crime-data client — `risk_utils.get_crimes_for_location` -/

/-- Gregorian leap year, as `datetime` validates dates. -/
def isLeapYear (y : ℕ) : Bool :=
  (y % 4 == 0 && y % 100 != 0) || y % 400 == 0

def days_in_month (y m : ℕ) : ℕ :=
  if m = 2 then (if isLeapYear y then 29 else 28)
  else if m = 4 ∨ m = 6 ∨ m = 9 ∨ m = 11 then 30
  else 31

/-- Python's `str.split(sep)` for a one-character separator: split at
every occurrence, keeping empty pieces. -/
def split_string (sep : Char) (s : String) : List String :=
  (s.data.splitOn sep).map String.mk

/-- Read a nonempty all-digit string as a natural number (how `strptime`
consumes a numeric field). -/
def digit_field? (s : String) : Option ℕ :=
  if s.data ≠ [] ∧ s.data.all Char.isDigit then
    some (s.data.foldl (fun acc ch => acc * 10 + (ch.toNat - 48)) 0)
  else none

/-- `datetime.strptime(date_part, '%Y-%m-%d')`: exactly three dash-joined
fields, a 4-digit year ≥ 1, a 1-2 digit month in 1..12, a 1-2 digit day
valid for that month. -/
def parse_ymd (s : String) : Option (ℕ × ℕ × ℕ) :=
  match split_string '-' s with
  | [ys, ms, ds] =>
    match digit_field? ys, digit_field? ms, digit_field? ds with
    | some y, some m, some d =>
      if ys.data.length = 4 ∧ 1 ≤ y ∧ ms.data.length ≤ 2 ∧ 1 ≤ m ∧ m ≤ 12 ∧
          ds.data.length ≤ 2 ∧ 1 ≤ d ∧ d ≤ days_in_month y m then
        some (y, m, d)
      else none
    | _, _, _ => none
  | _ => none

/-- The crime upstream's behaviour for one request. -/
inductive CrimeNetResp
  | reqError
  | response (status : ℕ) (data : List CrimeRecord)
deriving DecidableEq

/-- The exceptions `get_crimes_for_location` can surface.  Note there is no
upstream-status error kind: see `crime_upstream_error_masked_bug`. -/
inductive CrimeError
  | connectionError (lat long : ℚ)
  | invalidDateFormat (timestamp : String)
deriving DecidableEq

/-- `get_crimes_for_location(timestamp, lat, long)` (risk_utils.py lines
67-124) against a cached value (`none` = cache miss; a cached empty list
is falsy and also refetches) and an upstream behaviour.  The date is
parsed before any cache or network access; a transport error raises
`ConnectionError`; and a non-200 status raises a `ValueError` inside the
`try` block that the function's own `except ValueError` clause catches and
re-raises as the date-format `ValueError` (line 121). -/
def get_crimes_for_location (timestamp : String)
    (cached : Option (List CrimeRecord)) (net : CrimeNetResp)
    (lat long : ℚ) : Except CrimeError (List CrimeRecord) :=
  match parse_ymd ((split_string ' ' timestamp).headD "") with
  | none => Except.error (CrimeError.invalidDateFormat timestamp)
  | some _ =>
    let fetch : Except CrimeError (List CrimeRecord) :=
      match net with
      | CrimeNetResp.reqError => Except.error (CrimeError.connectionError lat long)
      | CrimeNetResp.response status data =>
        if status = 200 then Except.ok data
        else Except.error (CrimeError.invalidDateFormat timestamp)
    match cached with
    | some l => if l.isEmpty then fetch else Except.ok l
    | none => fetch

/-- **C7 (code bug).** A malformed timestamp does fail before any network
access, and a transport error does surface as `ConnectionError` — but a
non-200 upstream response is re-raised by the function's own
`except ValueError` clause as the *date-format* error, so the upstream
error kind is indistinguishable from an invalid-input error: on the valid
timestamp `"2024-01-15 10:30:00"` and a 404 response the caller receives
`Invalid date format ..., should be YYYY-MM`. -/
theorem crime_upstream_error_masked_bug :
    get_crimes_for_location "2024-01-15 10:30:00" none
        (CrimeNetResp.response 404 []) (103/2) (7/50)
      = Except.error (CrimeError.invalidDateFormat "2024-01-15 10:30:00") ∧
    (∀ (net : CrimeNetResp) (cached : Option (List CrimeRecord)) (lat long : ℚ),
      get_crimes_for_location "garbage" cached net lat long
        = Except.error (CrimeError.invalidDateFormat "garbage")) ∧
    get_crimes_for_location "2024-01-15 10:30:00" none
        CrimeNetResp.reqError (103/2) (7/50)
      = Except.error (CrimeError.connectionError (103/2) (7/50)) :=
  ⟨rfl, fun _ _ _ _ => rfl, rfl⟩

end QuoteEngine
